import Mathlib

set_option maxHeartbeats 1000000

/- Shallow embedding of the travel-assistant conversation pipeline:
   scripts/langgraph_workflow.py, scripts/deepseek_client.py,
   scripts/models.py, scripts/database.py.

   External collaborators (the text-completion service, the mock
   search/booking services, the SQL store transport) are modelled as
   outcome parameters, matching the spec's collaborator contracts; all
   code-owned logic (fence extraction, JSON decoding, pydantic-style
   validation, routing, branch request construction, persistence order)
   is embedded from the source. -/

/-- Python str.strip default whitespace set (space, tab, LF, CR, VT, FF),
which is also the character class of the regex escape used by
DeepSeekClient._extract_json_from_markdown. -/
def pyIsSpace (c : Char) : Bool :=
  c = ' ' || c = '\t' || c = '\n' || c = '\r' || c = '\x0b' || c = '\x0c'

/-- Drop leading whitespace (left part of Python str.strip). -/
def stripLeft (cs : List Char) : List Char := cs.dropWhile pyIsSpace

/-- Python str.strip on a character list. -/
def pyStrip (cs : List Char) : List Char :=
  ((stripLeft cs).reverse.dropWhile pyIsSpace).reverse

/-- Whether the first list is an initial segment of the second. -/
def leadsWith : List Char → List Char → Bool
  | [], _ => true
  | _ :: _, [] => false
  | p :: ps, c :: cs => p = c && leadsWith ps cs

/-- Find the first occurrence of a (non-empty) pattern: returns the text
before the occurrence and the text after it, or none when absent.  This
models the scanning behaviour of re.search for a literal prefix. -/
def breakOn (pat : List Char) : List Char → Option (List Char × List Char)
  | [] => if leadsWith pat [] then some ([], []) else none
  | c :: cs =>
    if leadsWith pat (c :: cs) then some ([], (c :: cs).drop pat.length)
    else
      match breakOn pat cs with
      | none => none
      | some (b, a) => some (c :: b, a)

/-- JSON values as produced by json.loads, with decimal numbers kept
exact as a mantissa and a power-of-ten denominator: num m e denotes
m / 10 ^ e. -/
inductive Json where
  | null : Json
  | bool (b : Bool) : Json
  | num (m : Int) (e : Nat) : Json
  | str (s : String) : Json
  | arr (xs : List Json) : Json
  | obj (fields : List (String × Json)) : Json
deriving Repr

/-- Dictionary lookup with Python dict semantics (a repeated key keeps
the last binding, as json.loads does). -/
def jlookup (fields : List (String × Json)) (k : String) : Option Json :=
  fields.foldl (fun acc kv => if kv.1 = k then some kv.2 else acc) none

/-- JSON escape sequences recognised by the decoder model. -/
def escChar (c : Char) : Option Char :=
  if c = '"' then some '"'
  else if c = '\\' then some '\\'
  else if c = '/' then some '/'
  else if c = 'n' then some '\n'
  else if c = 't' then some '\t'
  else if c = 'r' then some '\r'
  else none

/-- Parse the body of a JSON string after its opening quote. -/
def parseJStrAux : List Char → Option (List Char × List Char)
  | [] => none
  | '"' :: cs => some ([], cs)
  | '\\' :: cs =>
    match cs with
    | [] => none
    | e :: cs2 =>
      match escChar e with
      | none => none
      | some c =>
        match parseJStrAux cs2 with
        | none => none
        | some (s, r) => some (c :: s, r)
  | c :: cs =>
    match parseJStrAux cs with
    | none => none
    | some (s, r) => some (c :: s, r)

/-- Numeric value of a decimal digit character. -/
def digitVal (c : Char) : Option Nat :=
  if '0' ≤ c ∧ c ≤ '9' then some (c.toNat - '0'.toNat) else none

/-- Split a longest run of leading digits from the rest. -/
def takeDigits : List Char → (List Nat × List Char)
  | [] => ([], [])
  | c :: cs =>
    match digitVal c with
    | none => ([], c :: cs)
    | some d =>
      let (ds, r) := takeDigits cs
      (d :: ds, r)

/-- Value of a digit sequence read in base ten. -/
def natOfDigits (ds : List Nat) : Nat := ds.foldl (fun a d => a * 10 + d) 0

/-- Parse a JSON number (optional minus, digits, optional fraction;
exponents are outside the modelled subset). -/
def parseNumAux (cs : List Char) : Option ((Int × Nat) × List Char) :=
  let sgn := match cs with
    | '-' :: r => (true, r)
    | _ => (false, cs)
  match takeDigits sgn.2 with
  | ([], _) => none
  | (d :: ds, rest) =>
    match rest with
    | '.' :: r2 =>
      match takeDigits r2 with
      | ([], _) => none
      | (f :: fs, r3) =>
        let m : Int := Int.ofNat (natOfDigits ((d :: ds) ++ (f :: fs)))
        some ((if sgn.1 then -m else m, (f :: fs).length), r3)
    | _ =>
      let m : Int := Int.ofNat (natOfDigits (d :: ds))
      some ((if sgn.1 then -m else m, 0), rest)

/-- JSON insignificant whitespace. -/
def jsonWsChar (c : Char) : Bool :=
  c = ' ' || c = '\t' || c = '\n' || c = '\r'

/-- Skip JSON insignificant whitespace. -/
def skipWs (cs : List Char) : List Char := cs.dropWhile jsonWsChar

mutual

/-- Parse one JSON value, fuel-bounded. -/
def parseVal : Nat → List Char → Option (Json × List Char)
  | 0, _ => none
  | fuel + 1, cs0 =>
    match skipWs cs0 with
    | [] => none
    | '{' :: rest =>
      match skipWs rest with
      | '}' :: r2 => some (.obj [], r2)
      | r2 =>
        match parseMembers fuel r2 with
        | some (fs, r3) => some (.obj fs, r3)
        | none => none
    | '[' :: rest =>
      match skipWs rest with
      | ']' :: r2 => some (.arr [], r2)
      | r2 =>
        match parseItems fuel r2 with
        | some (xs, r3) => some (.arr xs, r3)
        | none => none
    | '"' :: rest =>
      match parseJStrAux rest with
      | some (s, r2) => some (.str (String.mk s), r2)
      | none => none
    | 't' :: 'r' :: 'u' :: 'e' :: r => some (.bool true, r)
    | 'f' :: 'a' :: 'l' :: 's' :: 'e' :: r => some (.bool false, r)
    | 'n' :: 'u' :: 'l' :: 'l' :: r => some (.null, r)
    | cs =>
      match parseNumAux cs with
      | some (me, r) => some (.num me.1 me.2, r)
      | none => none

/-- Parse the members of a JSON object after its opening brace. -/
def parseMembers : Nat → List Char → Option (List (String × Json) × List Char)
  | 0, _ => none
  | fuel + 1, cs =>
    match skipWs cs with
    | '"' :: rest =>
      match parseJStrAux rest with
      | none => none
      | some (k, r2) =>
        match skipWs r2 with
        | ':' :: r3 =>
          match parseVal fuel r3 with
          | none => none
          | some (v, r4) =>
            match skipWs r4 with
            | ',' :: r5 =>
              match parseMembers fuel r5 with
              | none => none
              | some (fs, r6) => some ((String.mk k, v) :: fs, r6)
            | '}' :: r5 => some ([(String.mk k, v)], r5)
            | _ => none
        | _ => none
    | _ => none

/-- Parse the items of a JSON array after its opening bracket. -/
def parseItems : Nat → List Char → Option (List Json × List Char)
  | 0, _ => none
  | fuel + 1, cs =>
    match parseVal fuel cs with
    | none => none
    | some (v, r) =>
      match skipWs r with
      | ',' :: r2 =>
        match parseItems fuel r2 with
        | none => none
        | some (xs, r3) => some (v :: xs, r3)
      | ']' :: r2 => some ([v], r2)
      | _ => none

end

/-- json.loads on the modelled subset: one value and nothing but
whitespace after it. -/
def jloads (s : String) : Option Json :=
  match parseVal (2 * s.data.length + 8) s.data with
  | none => none
  | some (j, rest) => if skipWs rest = [] then some j else none

/-- The opening fence literal of the regex in
DeepSeekClient._extract_json_from_markdown. -/
def fenceOpen : List Char := "```json".data

/-- The closing fence literal. -/
def fenceClose : List Char := "```".data

/-- DeepSeekClient._extract_json_from_markdown: take the first
fenced-json block (non-greedy up to the next triple backtick) stripped
of surrounding whitespace; when no complete fenced block exists, the
raw text is returned unchanged. -/
def extract_json_from_markdown (text : String) : String :=
  match breakOn fenceOpen text.data with
  | none => text
  | some ba =>
    match breakOn fenceClose ba.2 with
    | none => text
    | some ia => String.mk (pyStrip ia.1)

/-- models.IntentType (a five-member string enum). -/
inductive IntentType where
  | search_flight
  | search_hotel
  | book_trip
  | general_inquiry
  | greeting
deriving DecidableEq, Repr

/-- IntentType(value): the enum constructor, raising modelled as none. -/
def IntentType.ofString (s : String) : Option IntentType :=
  if s = "search_flight" then some .search_flight
  else if s = "search_hotel" then some .search_hotel
  else if s = "book_trip" then some .book_trip
  else if s = "general_inquiry" then some .general_inquiry
  else if s = "greeting" then some .greeting
  else none

/-- The .value string of an IntentType member. -/
def IntentType.val : IntentType → String
  | .search_flight => "search_flight"
  | .search_hotel => "search_hotel"
  | .book_trip => "book_trip"
  | .general_inquiry => "general_inquiry"
  | .greeting => "greeting"

/-- models.ExtractedEntities; confidence is kept as an exact decimal
(mantissa, power-of-ten denominator). -/
structure ExtractedEntities where
  intent : IntentType
  confidence : Int × Nat
  entities : List (String × Json)
deriving Repr

/-- The pydantic bound confidence ∈ [0.0, 1.0]: 0 ≤ m / 10 ^ e ≤ 1. -/
def confOk (c : Int × Nat) : Bool :=
  0 ≤ c.1 && c.1 ≤ Int.ofNat (10 ^ c.2)

/-- models.UIElement. -/
structure UIElement where
  type : String
  text : String
  action : String
  data : Option Json
deriving Repr

/-- UIElement(**element): requires a JSON object whose type, text and
action members are strings and whose data member, when present, is an
object or null; pydantic ignores extra members. -/
def UIElement.ofJson : Json → Option UIElement
  | .obj fs =>
    match jlookup fs "type", jlookup fs "text", jlookup fs "action" with
    | some (.str ty), some (.str tx), some (.str ac) =>
      match jlookup fs "data" with
      | none => some ⟨ty, tx, ac, none⟩
      | some .null => some ⟨ty, tx, ac, none⟩
      | some (.obj dfs) => some ⟨ty, tx, ac, some (.obj dfs)⟩
      | some _ => none
    | _, _, _ => none
  | _ => none

namespace DeepSeekClient

/-- The fallback triple returned on any extraction failure:
(general_inquiry, 0.5, empty entity map). -/
def fallbackExtraction : ExtractedEntities :=
  ⟨.general_inquiry, (5, 1), []⟩

/-- parsed.get("confidence", 0.0) followed by the pydantic float check
for type (a non-numeric value fails validation). -/
def confOfJson : Option Json → Option (Int × Nat)
  | none => some (0, 0)
  | some (.num m e) => some (m, e)
  | some _ => none

/-- parsed.get("entities", dict()) followed by the pydantic
Dict[str, Any] check. -/
def entsOfJson : Option Json → Option (List (String × Json))
  | none => some []
  | some (.obj fs) => some fs
  | some _ => none

/-- Build ExtractedEntities from the decoded payload: parsed["intent"]
must exist and name an enum member, and the confidence bound is
re-checked by the pydantic model; any failure raises (none). -/
def extractFromJson : Json → Option ExtractedEntities
  | .obj fs =>
    match jlookup fs "intent" with
    | some (.str s) =>
      match IntentType.ofString s with
      | some it =>
        match confOfJson (jlookup fs "confidence"),
              entsOfJson (jlookup fs "entities") with
        | some c, some es => if confOk c then some ⟨it, c, es⟩ else none
        | _, _ => none
      | none => none
    | _ => none
  | _ => none

/-- DeepSeekClient.extract_intent_and_entities, parameterised by the
outcome of the completion transport (_make_request): error means any
transport, status, envelope or empty-content failure. -/
def extract_intent_and_entities (completion : Except String String) :
    ExtractedEntities :=
  match completion with
  | .error _ => fallbackExtraction
  | .ok response =>
    if pyStrip response.data = [] then fallbackExtraction
    else
      match jloads (extract_json_from_markdown response) with
      | none => fallbackExtraction
      | some parsed =>
        match extractFromJson parsed with
        | none => fallbackExtraction
        | some e => e

/-- The fixed apology text returned by generate_response on failure. -/
def apologyMessage : String :=
  "I apologize, but I'm having trouble processing your request right now. Please try again."

/-- The ui_elements loop: run only when the member is present and is a
list; a single element failing UIElement validation raises (none). -/
def uiElementsOfJson (fs : List (String × Json)) : Option (List UIElement) :=
  match jlookup fs "ui_elements" with
  | some (.arr elems) => elems.mapM UIElement.ofJson
  | _ => some []

/-- Build the generation result from the decoded payload: the payload
must be an object (attribute access on anything else raises), the
ui_elements are validated, and the message member is read with
parsed.get("message", "") — absent means empty string, and the value is
passed through without validation. -/
def generateFromJson : Json → Option (Json × List UIElement)
  | .obj fs =>
    match uiElementsOfJson fs with
    | none => none
    | some uis => some ((jlookup fs "message").getD (.str ""), uis)
  | _ => none

/-- DeepSeekClient.generate_response, parameterised by the completion
outcome; returns the message value and validated UI elements, or the
fixed apology with no elements on any raised failure. -/
def generate_response (completion : Except String String) :
    Json × List UIElement :=
  match completion with
  | .error _ => (.str apologyMessage, [])
  | .ok response =>
    if pyStrip response.data = [] then (.str apologyMessage, [])
    else
      match jloads (extract_json_from_markdown response) with
      | none => (.str apologyMessage, [])
      | some parsed =>
        match generateFromJson parsed with
        | none => (.str apologyMessage, [])
        | some r => r

end DeepSeekClient

/-- Value of an all-digit run, none when empty or any non-digit. -/
def digitsToNatAux : List Char → Nat → Option Nat
  | [], acc => some acc
  | c :: cs, acc =>
    match digitVal c with
    | none => none
    | some d => digitsToNatAux cs (acc * 10 + d)

/-- Python int(str): strip whitespace, optional sign, decimal digits. -/
def pyIntOfStr (s : String) : Option Int :=
  match pyStrip s.data with
  | [] => none
  | '+' :: ds =>
    if ds = [] then none else (digitsToNatAux ds 0).map Int.ofNat
  | '-' :: ds =>
    if ds = [] then none else (digitsToNatAux ds 0).map (fun n => -(Int.ofNat n))
  | ds => (digitsToNatAux ds 0).map Int.ofNat

/-- Truncation toward zero of m / 10 ^ e, as Python int(float). -/
def truncToInt (m : Int) (e : Nat) : Int :=
  if 0 ≤ m then Int.ofNat (m.toNat / 10 ^ e)
  else -(Int.ofNat ((-m).toNat / 10 ^ e))

/-- Python int(x) on a JSON value: numbers truncate toward zero,
numeric strings parse, booleans coerce, everything else raises. -/
def pyInt : Json → Option Int
  | .num m e => some (truncToInt m e)
  | .str s => pyIntOfStr s
  | .bool b => some (if b then 1 else 0)
  | _ => none

/-- models.FlightSearchRequest. -/
structure FlightSearchRequest where
  origin : String
  destination : String
  departure_date : String
  return_date : Option String
  passengers : Int
  class_type : String
deriving DecidableEq, Repr

/-- models.HotelSearchRequest. -/
structure HotelSearchRequest where
  location : String
  check_in : String
  check_out : String
  guests : Int
  rooms : Int
deriving DecidableEq, Repr

/-- The pydantic str field check (non-strings are rejected). -/
def asStr : Json → Option String
  | .str s => some s
  | _ => none

/-- The pydantic Optional[str] field check on a dict .get result. -/
def asOptStr : Option Json → Option (Option String)
  | none => some none
  | some .null => some none
  | some (.str s) => some (some s)
  | some _ => none

/-- entities.get(key, default). -/
def entGetD (ents : List (String × Json)) (k : String) (dflt : Json) : Json :=
  (jlookup ents k).getD dflt

/-- The FlightSearchRequest construction in
TravelAssistantWorkflow.search_flights: defaults for absent entities,
int coercion of passengers, and the pydantic bound 1 ≤ passengers ≤ 9;
any coercion or validation failure raises (none). -/
def flightRequestOfEntities (ents : List (String × Json)) :
    Option FlightSearchRequest :=
  match asStr (entGetD ents "origin" (.str "")),
        asStr (entGetD ents "destination" (.str "")),
        asStr (entGetD ents "departure_date" (.str "")),
        asOptStr (jlookup ents "return_date"),
        pyInt (entGetD ents "passengers" (.num 1 0)),
        asStr (entGetD ents "class_type" (.str "economy")) with
  | some o, some d, some dd, some rd, some p, some ct =>
    if 1 ≤ p && p ≤ 9 then some ⟨o, d, dd, rd, p, ct⟩ else none
  | _, _, _, _, _, _ => none

/-- The HotelSearchRequest construction in
TravelAssistantWorkflow.search_hotels: defaults for absent entities,
int coercion of guests and rooms, and the pydantic bounds
1 ≤ guests ≤ 10 and 1 ≤ rooms ≤ 5. -/
def hotelRequestOfEntities (ents : List (String × Json)) :
    Option HotelSearchRequest :=
  match asStr (entGetD ents "location" (.str "")),
        asStr (entGetD ents "check_in" (.str "")),
        asStr (entGetD ents "check_out" (.str "")),
        pyInt (entGetD ents "guests" (.num 1 0)),
        pyInt (entGetD ents "rooms" (.num 1 0)) with
  | some l, some ci, some co, some g, some r =>
    if (1 ≤ g && g ≤ 10) && (1 ≤ r && r ≤ 5) then some ⟨l, ci, co, g, r⟩
    else none
  | _, _, _, _, _ => none

/-- The booking-branch arguments in
TravelAssistantWorkflow.create_booking: booking_type defaults to
"flight" and booking_id to the empty string; both are passed to the
collaborator unvalidated. -/
def bookingArgsOfEntities (ents : List (String × Json)) : Json × Json :=
  (entGetD ents "booking_type" (.str "flight"),
   entGetD ents "booking_id" (.str ""))

/-- database.ConversationMessage rows (append-only conversation log). -/
structure LogEntry where
  session_id : String
  user_id : Option String
  message_type : String
  content : String
  metadata : Json
deriving Repr

/-- database.ConversationSession rows (one per session_id). -/
structure SessionRec where
  session_id : String
  user_id : Option String
deriving DecidableEq, Repr

/-- The persistent store: the conversation log in insertion
(chronological) order and the session records. -/
structure Store where
  messages : List LogEntry
  sessions : List SessionRec
deriving Repr

/-- DatabaseManager.create_or_update_session: refresh when the
session_id exists (last_activity only; not modelled further), insert
otherwise. -/
def upsertSession (recs : List SessionRec) (sid : String)
    (uid : Option String) : List SessionRec :=
  if recs.any (fun r => r.session_id = sid) then recs
  else recs ++ [⟨sid, uid⟩]

namespace Workflow

/-- langgraph_workflow.WorkflowState. -/
structure WorkflowState where
  session_id : String
  user_id : Option String
  user_input : String
  conversation_history : List String
  intent : Option IntentType
  entities : List (String × Json)
  confidence : Int × Nat
  api_results : Option (List Json)
  response_message : Json
  ui_elements : List UIElement
  error : Option String
deriving Repr

/-- The outcomes of every collaborator call a single turn can make:
history read, the two completion calls, the three search/booking
services and the three store writes. -/
structure TurnEnv where
  historyLoad : Except String Unit
  extractCompletion : Except String String
  flightApi : FlightSearchRequest → Except String (List Json)
  hotelApi : HotelSearchRequest → Except String (List Json)
  bookingApi : Json → Json → List (String × Json) → Except String Json
  generateCompletion : Except String String
  storeUser : Except String Unit
  storeAssistant : Except String Unit
  storeSession : Except String Unit

/-- DatabaseManager.get_conversation_history: rows of the session,
newest first, limited; the caller then reverses them back to
chronological order and formats each as "type: content". -/
def historyLines (store : Store) (sid : String) : List String :=
  let newestFirst := ((store.messages.filter
      (fun m => m.session_id = sid)).reverse.take 10).reverse
  newestFirst.map (fun m => m.message_type ++ ": " ++ m.content)

/-- TravelAssistantWorkflow.preprocess_input: strip the input and load
recent history; a store failure is absorbed and leaves the history
empty. -/
def preprocess_input (env : TurnEnv) (store : Store)
    (st : WorkflowState) : WorkflowState :=
  let cleaned := String.mk (pyStrip st.user_input.data)
  let hist := match env.historyLoad with
    | .error _ => []
    | .ok _ => historyLines store st.session_id
  { st with conversation_history := hist, user_input := cleaned }

/-- TravelAssistantWorkflow.extract_intent_and_entities node: the
client function never raises (it returns its own fallback), so the
node-level except clause is dead and the state error field is not
written here. -/
def extract_intent_and_entities (env : TurnEnv)
    (st : WorkflowState) : WorkflowState :=
  let ex := DeepSeekClient.extract_intent_and_entities env.extractCompletion
  { st with intent := some ex.intent, entities := ex.entities,
            confidence := ex.confidence }

/-- TravelAssistantWorkflow.route_condition. -/
def route_condition (intent : Option IntentType) : String :=
  match intent with
  | some .search_flight => "search_flight"
  | some .search_hotel => "search_hotel"
  | some .book_trip => "book_trip"
  | _ => "general"

/-- route_condition under the string-enum equality semantics: IntentType
is a str Enum, so comparing an arbitrary string-valued intent against a
member is string equality.  This extends route_condition to unrecognized
values. -/
def route_condition_raw (intent : Option String) : String :=
  if intent = some "search_flight" then "search_flight"
  else if intent = some "search_hotel" then "search_hotel"
  else if intent = some "book_trip" then "book_trip"
  else "general"

/-- TravelAssistantWorkflow.search_flights: build the typed request
from the entities (any coercion or validation failure raises before the
collaborator call) and invoke the flight collaborator; any failure is
caught, recording the error and an empty result list. -/
def search_flights (api : FlightSearchRequest → Except String (List Json))
    (st : WorkflowState) : WorkflowState :=
  match flightRequestOfEntities st.entities with
  | none =>
    { st with error := some "flight request validation failed",
              api_results := some [] }
  | some req =>
    match api req with
    | .error e => { st with error := some e, api_results := some [] }
    | .ok flights => { st with api_results := some flights }

/-- TravelAssistantWorkflow.search_hotels, same shape as the flight
branch. -/
def search_hotels (api : HotelSearchRequest → Except String (List Json))
    (st : WorkflowState) : WorkflowState :=
  match hotelRequestOfEntities st.entities with
  | none =>
    { st with error := some "hotel request validation failed",
              api_results := some [] }
  | some req =>
    match api req with
    | .error e => { st with error := some e, api_results := some [] }
    | .ok hotels => { st with api_results := some hotels }

/-- TravelAssistantWorkflow.create_booking: read booking_type and
booking_id with their defaults and invoke the booking collaborator;
failure degrades identically to the search branches. -/
def create_booking
    (api : Json → Json → List (String × Json) → Except String Json)
    (st : WorkflowState) : WorkflowState :=
  match api (bookingArgsOfEntities st.entities).1
        (bookingArgsOfEntities st.entities).2 st.entities with
  | .error e => { st with error := some e, api_results := some [] }
  | .ok booking => { st with api_results := some [booking] }

/-- TravelAssistantWorkflow.handle_general_inquiry: no external call,
empty results unconditionally. -/
def handle_general_inquiry (st : WorkflowState) : WorkflowState :=
  { st with api_results := some [] }

/-- The conditional edges of the graph: route_condition's key selects
the branch node. -/
def dispatch_node (env : TurnEnv) (st : WorkflowState) : WorkflowState :=
  match route_condition st.intent with
  | "search_flight" => search_flights env.flightApi st
  | "search_hotel" => search_hotels env.hotelApi st
  | "book_trip" => create_booking env.bookingApi st
  | _ => handle_general_inquiry st

/-- TravelAssistantWorkflow.generate_response node: the client function
never raises, so the node only installs its message and UI elements;
the error field is untouched. -/
def generate_response (env : TurnEnv) (st : WorkflowState) : WorkflowState :=
  let r := DeepSeekClient.generate_response env.generateCompletion
  { st with response_message := r.1, ui_elements := r.2 }

/-- Metadata stored with the user log entry. -/
def userMetadata (st : WorkflowState) : Json :=
  .obj [("intent", match st.intent with
                   | none => .null
                   | some i => .str i.val),
        ("entities", .obj st.entities),
        ("confidence", .num st.confidence.1 st.confidence.2)]

/-- elem.dict() for a UI element. -/
def uiToJson (u : UIElement) : Json :=
  .obj [("type", .str u.type), ("text", .str u.text),
        ("action", .str u.action), ("data", u.data.getD .null)]

/-- Metadata stored with the assistant log entry. -/
def assistantMetadata (st : WorkflowState) : Json :=
  .obj [("ui_elements", .arr (st.ui_elements.map uiToJson)),
        ("api_results_count",
         .num (Int.ofNat ((st.api_results.getD []).length)) 0)]

/-- The user-role log entry of a turn. -/
def userEntry (st : WorkflowState) : LogEntry :=
  ⟨st.session_id, st.user_id, "user", st.user_input, userMetadata st⟩

/-- The assistant-role log entry of a turn (content must already be a
string for the MessageCreate model to accept it). -/
def assistantEntry (st : WorkflowState) (content : String) : LogEntry :=
  ⟨st.session_id, st.user_id, "assistant", content, assistantMetadata st⟩

/-- TravelAssistantWorkflow.store_conversation: three separately
committed operations — user message insert, assistant message insert,
session upsert — inside one try/except.  A failure at any point is
absorbed into the error field, but the operations already committed
stay in the store. -/
def store_conversation (env : TurnEnv) (store : Store)
    (st : WorkflowState) : Store × WorkflowState :=
  match env.storeUser with
  | .error e => (store, { st with error := some e })
  | .ok _ =>
    let store1 := { store with messages := store.messages ++ [userEntry st] }
    match st.response_message with
    | .str content =>
      match env.storeAssistant with
      | .error e => (store1, { st with error := some e })
      | .ok _ =>
        let store2 :=
          { store1 with
            messages := store1.messages ++ [assistantEntry st content] }
        match env.storeSession with
        | .error e => (store2, { st with error := some e })
        | .ok _ =>
          ({ store2 with
             sessions := upsertSession store2.sessions st.session_id
               st.user_id }, st)
    | _ =>
      (store1, { st with error := some "assistant content validation failed" })

/-- The initial WorkflowState built by run_workflow. -/
def initState (user_input session_id : String) (user_id : Option String) :
    WorkflowState :=
  ⟨session_id, user_id, user_input, [], none, [], (0, 0), none,
   .str "", [], none⟩

/-- The state reaching the store step: preprocess, extract, route (the
route_request node is the identity), one dispatch branch, generate. -/
def pre_store_state (env : TurnEnv) (store : Store) (st0 : WorkflowState) :
    WorkflowState :=
  generate_response env
    (dispatch_node env
      (extract_intent_and_entities env (preprocess_input env store st0)))

/-- The compiled graph: preprocess, extract, route, one dispatch branch,
generate, store. -/
def run_pipeline (env : TurnEnv) (store : Store) (st0 : WorkflowState) :
    Store × WorkflowState :=
  store_conversation env store (pre_store_state env store st0)

/-- models.AssistantResponse (timestamp omitted). -/
structure AssistantResponse where
  message : String
  intent : Option IntentType
  entities : Option (List (String × Json))
  results : Option (List Json)
  ui_elements : Option (List UIElement)
  session_id : String
deriving Repr

/-- The minimal fixed response produced when the orchestration itself
throws (here: when AssistantResponse validation rejects a non-string
message value). -/
def errorResponse (session_id : String) : AssistantResponse :=
  ⟨"I apologize, but I encountered an error processing your request. Please try again.",
   none, none, none, none, session_id⟩

/-- Assembly of the caller response from the final state (the tail of
run_workflow): a non-string message value fails AssistantResponse
validation inside the outer try/except and yields the minimal apology
response, while the store effects already committed are kept. -/
def assemble_response (session_id : String) (r : Store × WorkflowState) :
    Store × AssistantResponse :=
  match r.2.response_message with
  | .str m =>
    (r.1, ⟨m, r.2.intent, some r.2.entities, r.2.api_results,
           some r.2.ui_elements, session_id⟩)
  | _ => (r.1, errorResponse session_id)

/-- TravelAssistantWorkflow.run_workflow: build the initial state, run
the graph, and assemble the response. -/
def run_workflow (env : TurnEnv) (store : Store) (user_input : String)
    (session_id : String) (user_id : Option String) :
    Store × AssistantResponse :=
  assemble_response session_id
    (run_pipeline env store (initState user_input session_id user_id))

end Workflow

namespace Workflow

/-- A failing extraction-completion outcome: transport failure, blank
content, a payload that does not decode, or a decoded payload the
ExtractedEntities construction rejects (missing or non-enum intent,
ill-typed or out-of-range confidence, ill-typed entities). -/
def extractFailure : Except String String → Prop
  | .error _ => True
  | .ok s =>
    pyStrip s.data = [] ∨
    jloads (extract_json_from_markdown s) = none ∨
    ∃ j, jloads (extract_json_from_markdown s) = some j ∧
         DeepSeekClient.extractFromJson j = none

/-- A failing generation-completion outcome: transport failure, blank
content, a payload that does not decode, or a decoded payload rejected
while building the result (non-object payload or an invalid UI-element
record). -/
def genFailure : Except String String → Prop
  | .error _ => True
  | .ok s =>
    pyStrip s.data = [] ∨
    jloads (extract_json_from_markdown s) = none ∨
    ∃ j, jloads (extract_json_from_markdown s) = some j ∧
         DeepSeekClient.generateFromJson j = none

/-- A count entity value that int coercion rejects or whose coerced
value violates the pydantic bounds lo ≤ n ≤ hi. -/
def badCount (v : Json) (lo hi : Int) : Prop :=
  pyInt v = none ∨ ∃ n, pyInt v = some n ∧ (n < lo ∨ hi < n)

end Workflow

/-- An empty store, used by concrete runs. -/
def emptyStore : Store := ⟨[], []⟩

/-- A turn environment whose completion service is unreachable and
whose search, booking and store collaborators succeed. -/
def baseEnv : Workflow.TurnEnv :=
  ⟨.ok (), .error "completion unreachable", fun _ => .ok [], fun _ => .ok [],
   fun _ _ _ => .ok .null, .error "completion unreachable",
   .ok (), .ok (), .ok ()⟩

/-- A generation completion that parses to an object with no message
member. -/
def noMessageCompletion : String :=
  "```json\n\x7b\"ui_elements\": []\x7d\n```"

/-- An extraction completion that parses to intent search_flight (all
other members defaulted). -/
def flightIntentCompletion : String :=
  "```json\n\x7b\"intent\": \"search_flight\"\x7d\n```"

/-- An extraction completion carrying valid JSON with no markdown
fence. -/
def unfencedGreeting : String :=
  "\x7b\"intent\": \"greeting\", \"confidence\": 1, \"entities\": \x7b\x7d\x7d"

/-- An extraction completion whose confidence lies outside [0, 1]. -/
def overConfidentCompletion : String :=
  "```json\n\x7b\"intent\": \"greeting\", \"confidence\": 1.5, \"entities\": \x7b\x7d\x7d\n```"

/-- baseEnv with the no-message generation outcome. -/
def envNoMsg : Workflow.TurnEnv :=
  { baseEnv with generateCompletion := .ok noMessageCompletion }

/-- baseEnv with a failing assistant-entry store write. -/
def envAsstFail : Workflow.TurnEnv :=
  { baseEnv with storeAssistant := .error "disk full" }

/-- baseEnv routed to the flight branch with a failing flight
collaborator and the no-message generation outcome. -/
def envFlightFail : Workflow.TurnEnv :=
  { baseEnv with
    extractCompletion := .ok flightIntentCompletion,
    flightApi := fun _ => .error "flight api down",
    generateCompletion := .ok noMessageCompletion }

/-- envFlightFail with the generation completion unreachable instead. -/
def envFlightFailGenDown : Workflow.TurnEnv :=
  { baseEnv with
    extractCompletion := .ok flightIntentCompletion,
    flightApi := fun _ => .error "flight api down" }

/-- An extraction completion that parses to intent book_trip (all
other members defaulted). -/
def bookingIntentCompletion : String :=
  "```json\n\x7b\"intent\": \"book_trip\"\x7d\n```"

/-- baseEnv routed to the booking branch with a failing booking
collaborator (generation completion unreachable). -/
def envBookingFailGenDown : Workflow.TurnEnv :=
  { baseEnv with
    extractCompletion := .ok bookingIntentCompletion,
    bookingApi := fun _ _ _ => .error "booking api down" }

/-- A state over given entities, used to exercise the dispatch
branches directly. -/
def stateWithEntities (ents : List (String × Json)) : Workflow.WorkflowState :=
  { Workflow.initState "x" "s1" none with entities := ents }

namespace Workflow

/-- store_conversation either leaves the turn state unchanged or only
sets its error field. -/
theorem store_conversation_snd (env : TurnEnv) (store : Store)
    (st : WorkflowState) :
    (store_conversation env store st).2 = st ∨
    ∃ e, (store_conversation env store st).2 = { st with error := some e } := by
  unfold store_conversation
  cases env.storeUser with
  | error e => exact Or.inr ⟨e, rfl⟩
  | ok u =>
    cases st.response_message with
    | str c =>
      cases env.storeAssistant with
      | error e => exact Or.inr ⟨e, rfl⟩
      | ok a =>
        cases env.storeSession with
        | error e => exact Or.inr ⟨e, rfl⟩
        | ok s => exact Or.inl rfl
    | null => exact Or.inr ⟨_, rfl⟩
    | bool b => exact Or.inr ⟨_, rfl⟩
    | num m e => exact Or.inr ⟨_, rfl⟩
    | arr xs => exact Or.inr ⟨_, rfl⟩
    | obj fs => exact Or.inr ⟨_, rfl⟩

/-- The store step never changes the reply message. -/
theorem store_keeps_message (env : TurnEnv) (store : Store)
    (st : WorkflowState) :
    (store_conversation env store st).2.response_message =
      st.response_message := by
  rcases store_conversation_snd env store st with h | ⟨e, h⟩ <;> rw [h]

/-- The store step never changes the session id. -/
theorem store_keeps_session (env : TurnEnv) (store : Store)
    (st : WorkflowState) :
    (store_conversation env store st).2.session_id = st.session_id := by
  rcases store_conversation_snd env store st with h | ⟨e, h⟩ <;> rw [h]

/-- The store step never changes the intent. -/
theorem store_keeps_intent (env : TurnEnv) (store : Store)
    (st : WorkflowState) :
    (store_conversation env store st).2.intent = st.intent := by
  rcases store_conversation_snd env store st with h | ⟨e, h⟩ <;> rw [h]

/-- The store step never changes the dispatch results. -/
theorem store_keeps_api (env : TurnEnv) (store : Store)
    (st : WorkflowState) :
    (store_conversation env store st).2.api_results = st.api_results := by
  rcases store_conversation_snd env store st with h | ⟨e, h⟩ <;> rw [h]

/-- The store step keeps a recorded error recorded. -/
theorem store_keeps_error_isSome (env : TurnEnv) (store : Store)
    (st : WorkflowState) (h : st.error.isSome = true) :
    ((store_conversation env store st).2.error).isSome = true := by
  rcases store_conversation_snd env store st with h1 | ⟨e, h1⟩ <;> rw [h1]
  · exact h
  · rfl

/-- The store step only ever appends to the conversation log. -/
theorem store_conversation_append (env : TurnEnv) (store : Store)
    (st : WorkflowState) :
    ∃ t, (store_conversation env store st).1.messages =
      store.messages ++ t := by
  unfold store_conversation
  cases env.storeUser with
  | error e => exact ⟨[], by simp⟩
  | ok u =>
    cases st.response_message with
    | str c =>
      cases env.storeAssistant with
      | error e => exact ⟨[userEntry st], rfl⟩
      | ok a =>
        cases env.storeSession with
        | error e => exact ⟨[userEntry st, assistantEntry st c], by simp⟩
        | ok s => exact ⟨[userEntry st, assistantEntry st c], by simp⟩
    | null => exact ⟨[userEntry st], rfl⟩
    | bool b => exact ⟨[userEntry st], rfl⟩
    | num m e => exact ⟨[userEntry st], rfl⟩
    | arr xs => exact ⟨[userEntry st], rfl⟩
    | obj fs => exact ⟨[userEntry st], rfl⟩

/-- When all three store operations succeed and the reply message is a
string, the turn appends exactly the user and assistant entries and
upserts the session record, leaving the state unchanged. -/
theorem store_conversation_ok (env : TurnEnv) (store : Store)
    (st : WorkflowState) (hu : env.storeUser = .ok ())
    (ha : env.storeAssistant = .ok ()) (hs : env.storeSession = .ok ())
    (c : String) (hm : st.response_message = .str c) :
    (store_conversation env store st).1.messages =
      store.messages ++ [userEntry st, assistantEntry st c] ∧
    (store_conversation env store st).1.sessions =
      upsertSession store.sessions st.session_id st.user_id ∧
    (store_conversation env store st).2 = st := by
  unfold store_conversation
  rw [hu, hm, ha, hs]
  exact ⟨by simp, rfl, rfl⟩

/-- The dispatch step never changes the session id. -/
theorem dispatch_session (env : TurnEnv) (st : WorkflowState) :
    (dispatch_node env st).session_id = st.session_id := by
  unfold dispatch_node search_flights search_hotels create_booking
    handle_general_inquiry
  (repeat' split) <;> rfl

/-- The dispatch step never changes the user id. -/
theorem dispatch_user (env : TurnEnv) (st : WorkflowState) :
    (dispatch_node env st).user_id = st.user_id := by
  unfold dispatch_node search_flights search_hotels create_booking
    handle_general_inquiry
  (repeat' split) <;> rfl

/-- The dispatch step never changes the intent. -/
theorem dispatch_intent (env : TurnEnv) (st : WorkflowState) :
    (dispatch_node env st).intent = st.intent := by
  unfold dispatch_node search_flights search_hotels create_booking
    handle_general_inquiry
  (repeat' split) <;> rfl

/-- The reply of the pre-store state is the generation result. -/
theorem pre_store_message (env : TurnEnv) (store : Store)
    (st0 : WorkflowState) :
    (pre_store_state env store st0).response_message =
      (DeepSeekClient.generate_response env.generateCompletion).1 := rfl

/-- The pre-store state keeps the initial session id. -/
theorem pre_store_session (env : TurnEnv) (store : Store)
    (st0 : WorkflowState) :
    (pre_store_state env store st0).session_id = st0.session_id := by
  show (dispatch_node env _).session_id = st0.session_id
  rw [dispatch_session]
  rfl

/-- The pre-store state keeps the initial user id. -/
theorem pre_store_user (env : TurnEnv) (store : Store)
    (st0 : WorkflowState) :
    (pre_store_state env store st0).user_id = st0.user_id := by
  show (dispatch_node env _).user_id = st0.user_id
  rw [dispatch_user]
  rfl

/-- The pre-store intent is the extraction result. -/
theorem pre_store_intent (env : TurnEnv) (store : Store)
    (st0 : WorkflowState) :
    (pre_store_state env store st0).intent =
      some (DeepSeekClient.extract_intent_and_entities
        env.extractCompletion).intent := by
  show (dispatch_node env _).intent = _
  rw [dispatch_intent]
  rfl

/-- The final state's reply message is the generation result. -/
theorem pipeline_message (env : TurnEnv) (store : Store)
    (st0 : WorkflowState) :
    (run_pipeline env store st0).2.response_message =
      (DeepSeekClient.generate_response env.generateCompletion).1 := by
  unfold run_pipeline
  rw [store_keeps_message, pre_store_message]

/-- The final state keeps the initial session id. -/
theorem pipeline_session (env : TurnEnv) (store : Store)
    (st0 : WorkflowState) :
    (run_pipeline env store st0).2.session_id = st0.session_id := by
  unfold run_pipeline
  rw [store_keeps_session, pre_store_session]

/-- The final state's intent is the extraction result. -/
theorem pipeline_intent (env : TurnEnv) (store : Store)
    (st0 : WorkflowState) :
    (run_pipeline env store st0).2.intent =
      some (DeepSeekClient.extract_intent_and_entities
        env.extractCompletion).intent := by
  unfold run_pipeline
  rw [store_keeps_intent, pre_store_intent]

/-- run_workflow echoes the session id on both assembly paths. -/
theorem run_workflow_session (env : TurnEnv) (store : Store)
    (input sid : String) (uid : Option String) :
    (run_workflow env store input sid uid).2.session_id = sid := by
  unfold run_workflow assemble_response errorResponse
  split <;> rfl

/-- run_workflow's store outcome is the pipeline's store outcome. -/
theorem run_workflow_store (env : TurnEnv) (store : Store)
    (input sid : String) (uid : Option String) :
    (run_workflow env store input sid uid).1 =
      (run_pipeline env store (initState input sid uid)).1 := by
  unfold run_workflow assemble_response
  split <;> rfl

/-- When the generation result is a string, run_workflow's caller
message is exactly that string. -/
theorem run_workflow_message_of_str (env : TurnEnv) (store : Store)
    (input sid : String) (uid : Option String) (s : String)
    (h : (DeepSeekClient.generate_response env.generateCompletion).1 =
      .str s) :
    (run_workflow env store input sid uid).2.message = s := by
  have hm := pipeline_message env store (initState input sid uid)
  rw [h] at hm
  unfold run_workflow assemble_response
  rw [hm]

end Workflow

namespace Workflow

/-- Every failing extraction outcome produces the fixed fallback
triple. -/
theorem extract_fallback_of_failure (c : Except String String)
    (h : extractFailure c) :
    DeepSeekClient.extract_intent_and_entities c =
      DeepSeekClient.fallbackExtraction := by
  cases c with
  | error e => rfl
  | ok s =>
    simp only [extractFailure] at h
    rcases h with h1 | h2 | ⟨j, hj, hn⟩
    · simp [DeepSeekClient.extract_intent_and_entities, h1]
    · simp [DeepSeekClient.extract_intent_and_entities, h2]
    · simp [DeepSeekClient.extract_intent_and_entities, hj, hn]

/-- Every failing generation outcome produces the fixed apology and an
empty UI-element list. -/
theorem generate_fallback_of_failure (c : Except String String)
    (h : genFailure c) :
    DeepSeekClient.generate_response c =
      (.str DeepSeekClient.apologyMessage, []) := by
  cases c with
  | error e => rfl
  | ok s =>
    simp only [genFailure] at h
    rcases h with h1 | h2 | ⟨j, hj, hn⟩
    · simp [DeepSeekClient.generate_response, h1]
    · simp [DeepSeekClient.generate_response, h2]
    · simp [DeepSeekClient.generate_response, hj, hn]

/-- A passengers entity that int coercion rejects makes the flight
request construction raise. -/
theorem flightRequest_none_of_coerce (ents : List (String × Json))
    (h : pyInt (entGetD ents "passengers" (.num 1 0)) = none) :
    flightRequestOfEntities ents = none := by
  unfold flightRequestOfEntities
  split
  · simp_all
  · rfl

/-- A passengers entity whose coerced value violates 1 ≤ p ≤ 9 makes
the flight request construction raise. -/
theorem flightRequest_none_of_range (ents : List (String × Json)) (p : Int)
    (hp : pyInt (entGetD ents "passengers" (.num 1 0)) = some p)
    (hr : p < 1 ∨ 9 < p) :
    flightRequestOfEntities ents = none := by
  unfold flightRequestOfEntities
  split
  · split
    · exfalso
      simp_all
      omega
    · rfl
  · rfl

/-- A guests entity that int coercion rejects makes the hotel request
construction raise. -/
theorem hotelRequest_none_of_guests_coerce (ents : List (String × Json))
    (h : pyInt (entGetD ents "guests" (.num 1 0)) = none) :
    hotelRequestOfEntities ents = none := by
  unfold hotelRequestOfEntities
  split
  · simp_all
  · rfl

/-- A guests entity whose coerced value violates 1 ≤ g ≤ 10 makes the
hotel request construction raise. -/
theorem hotelRequest_none_of_guests_range (ents : List (String × Json))
    (g : Int) (hp : pyInt (entGetD ents "guests" (.num 1 0)) = some g)
    (hr : g < 1 ∨ 10 < g) :
    hotelRequestOfEntities ents = none := by
  unfold hotelRequestOfEntities
  split
  · split
    · exfalso
      simp_all
      omega
    · rfl
  · rfl

/-- A rooms entity that int coercion rejects makes the hotel request
construction raise. -/
theorem hotelRequest_none_of_rooms_coerce (ents : List (String × Json))
    (h : pyInt (entGetD ents "rooms" (.num 1 0)) = none) :
    hotelRequestOfEntities ents = none := by
  unfold hotelRequestOfEntities
  split
  · simp_all
  · rfl

/-- A rooms entity whose coerced value violates 1 ≤ r ≤ 5 makes the
hotel request construction raise. -/
theorem hotelRequest_none_of_rooms_range (ents : List (String × Json))
    (r : Int) (hp : pyInt (entGetD ents "rooms" (.num 1 0)) = some r)
    (hr : r < 1 ∨ 5 < r) :
    hotelRequestOfEntities ents = none := by
  unfold hotelRequestOfEntities
  split
  · split
    · exfalso
      simp_all
      omega
    · rfl
  · rfl

/-- When the flight request does not validate, the branch degrades
without consulting the collaborator. -/
theorem search_flights_invalid (api : FlightSearchRequest →
    Except String (List Json)) (st : WorkflowState)
    (h : flightRequestOfEntities st.entities = none) :
    search_flights api st =
      { st with error := some "flight request validation failed",
                api_results := some [] } := by
  unfold search_flights
  rw [h]

/-- When the hotel request does not validate, the branch degrades
without consulting the collaborator. -/
theorem search_hotels_invalid (api : HotelSearchRequest →
    Except String (List Json)) (st : WorkflowState)
    (h : hotelRequestOfEntities st.entities = none) :
    search_hotels api st =
      { st with error := some "hotel request validation failed",
                api_results := some [] } := by
  unfold search_hotels
  rw [h]

/-- A flight branch whose collaborator always fails yields empty
results and a recorded error, whether or not the request validated. -/
theorem search_flights_allfail (api : FlightSearchRequest →
    Except String (List Json)) (st : WorkflowState) (err : String)
    (h : ∀ req, api req = .error err) :
    (search_flights api st).api_results = some [] ∧
    ((search_flights api st).error).isSome = true := by
  unfold search_flights
  split
  · exact ⟨rfl, rfl⟩
  · rw [h]
    exact ⟨rfl, rfl⟩

/-- A hotel branch whose collaborator always fails yields empty results
and a recorded error, whether or not the request validated. -/
theorem search_hotels_allfail (api : HotelSearchRequest →
    Except String (List Json)) (st : WorkflowState) (err : String)
    (h : ∀ req, api req = .error err) :
    (search_hotels api st).api_results = some [] ∧
    ((search_hotels api st).error).isSome = true := by
  unfold search_hotels
  split
  · exact ⟨rfl, rfl⟩
  · rw [h]
    exact ⟨rfl, rfl⟩

/-- A booking branch whose collaborator always fails yields empty
results and a recorded error. -/
theorem create_booking_allfail
    (api : Json → Json → List (String × Json) → Except String Json)
    (st : WorkflowState) (err : String)
    (h : ∀ bt bid ents, api bt bid ents = .error err) :
    (create_booking api st).api_results = some [] ∧
    ((create_booking api st).error).isSome = true := by
  unfold create_booking
  rw [h]
  exact ⟨rfl, rfl⟩

end Workflow

namespace Workflow

/-- A search_flight intent selects the flight branch. -/
theorem dispatch_eq_flight (env : TurnEnv) (st : WorkflowState)
    (h : st.intent = some IntentType.search_flight) :
    dispatch_node env st = search_flights env.flightApi st := by
  unfold dispatch_node route_condition
  rw [h]
  rfl

/-- A search_hotel intent selects the hotel branch. -/
theorem dispatch_eq_hotel (env : TurnEnv) (st : WorkflowState)
    (h : st.intent = some IntentType.search_hotel) :
    dispatch_node env st = search_hotels env.hotelApi st := by
  unfold dispatch_node route_condition
  rw [h]
  rfl

/-- A book_trip intent selects the booking branch. -/
theorem dispatch_eq_booking (env : TurnEnv) (st : WorkflowState)
    (h : st.intent = some IntentType.book_trip) :
    dispatch_node env st = create_booking env.bookingApi st := by
  unfold dispatch_node route_condition
  rw [h]
  rfl

/-- Every other intent value selects the general branch. -/
theorem dispatch_eq_general (env : TurnEnv) (st : WorkflowState)
    (h1 : st.intent ≠ some IntentType.search_flight)
    (h2 : st.intent ≠ some IntentType.search_hotel)
    (h3 : st.intent ≠ some IntentType.book_trip) :
    dispatch_node env st = handle_general_inquiry st := by
  unfold dispatch_node route_condition
  rcases hi : st.intent with _ | it
  · rfl
  · cases it
    · exact absurd hi h1
    · exact absurd hi h2
    · exact absurd hi h3
    · rfl
    · rfl

/-- The routing function agrees with its string-equality reading. -/
theorem route_condition_eq_raw (i : Option IntentType) :
    route_condition i = route_condition_raw (i.map IntentType.val) := by
  cases i with
  | none => rfl
  | some it => cases it <;> rfl

/-- Any string other than the three routed keys resolves to general. -/
theorem route_raw_general (s : Option String)
    (h1 : s ≠ some "search_flight") (h2 : s ≠ some "search_hotel")
    (h3 : s ≠ some "book_trip") :
    route_condition_raw s = "general" := by
  unfold route_condition_raw
  rw [if_neg h1, if_neg h2, if_neg h3]

end Workflow

/-- C6: the routing function is total and deterministic over all intent
values: search_flight maps to the flight branch, search_hotel to the
hotel branch, book_trip to the booking branch, and every other value —
none, general_inquiry, greeting, and (under the string-enum equality
semantics) any unrecognized string — maps to the general branch;
routing is a total function and never errors. -/
theorem C6_routing_total_deterministic :
    (∀ (env : Workflow.TurnEnv) (st : Workflow.WorkflowState),
      st.intent = some IntentType.search_flight →
      Workflow.dispatch_node env st =
        Workflow.search_flights env.flightApi st) ∧
    (∀ env st, st.intent = some IntentType.search_hotel →
      Workflow.dispatch_node env st =
        Workflow.search_hotels env.hotelApi st) ∧
    (∀ env st, st.intent = some IntentType.book_trip →
      Workflow.dispatch_node env st =
        Workflow.create_booking env.bookingApi st) ∧
    (∀ env st, st.intent ≠ some IntentType.search_flight →
      st.intent ≠ some IntentType.search_hotel →
      st.intent ≠ some IntentType.book_trip →
      Workflow.dispatch_node env st = Workflow.handle_general_inquiry st) ∧
    (∀ i : Option IntentType,
      Workflow.route_condition i =
        Workflow.route_condition_raw (i.map IntentType.val)) ∧
    (∀ s : Option String, s ≠ some "search_flight" →
      s ≠ some "search_hotel" → s ≠ some "book_trip" →
      Workflow.route_condition_raw s = "general") :=
  ⟨Workflow.dispatch_eq_flight, Workflow.dispatch_eq_hotel,
   Workflow.dispatch_eq_booking, Workflow.dispatch_eq_general,
   Workflow.route_condition_eq_raw, Workflow.route_raw_general⟩

/-- Witness for C6 at concrete inputs: a search_flight intent picks the
flight branch and an unrecognized string routes to general. -/
theorem C6_routing_total_deterministic_witness :
    Workflow.dispatch_node baseEnv
      { stateWithEntities [] with intent := some IntentType.search_flight } =
      Workflow.search_flights baseEnv.flightApi
        { stateWithEntities [] with intent := some IntentType.search_flight } ∧
    Workflow.route_condition_raw (some "teleport_me") = "general" :=
  ⟨C6_routing_total_deterministic.1 baseEnv _ rfl,
   C6_routing_total_deterministic.2.2.2.2.2 (some "teleport_me")
     (by decide) (by decide) (by decide)⟩

/-- C10: a completion payload that decodes to an object whose
confidence value lies outside [0, 1] makes the extractor discard the
parsed intent and entities entirely and return the full fallback,
because the ExtractedEntities construction re-validates confidence
against the [0, 1] bound. -/
theorem C10_confidence_revalidated (s : String)
    (fs : List (String × Json)) (m : Int) (e : Nat)
    (hj : jloads (extract_json_from_markdown s) = some (.obj fs))
    (hc : jlookup fs "confidence" = some (.num m e))
    (hr : confOk (m, e) = false) :
    DeepSeekClient.extract_intent_and_entities (.ok s) =
      DeepSeekClient.fallbackExtraction := by
  have hn : DeepSeekClient.extractFromJson (.obj fs) = none := by
    rcases hi : jlookup fs "intent" with _ | v
    · simp [DeepSeekClient.extractFromJson, hi]
    · cases v with
      | str sv =>
        rcases ho : IntentType.ofString sv with _ | it
        · simp [DeepSeekClient.extractFromJson, hi, ho]
        · rcases he : DeepSeekClient.entsOfJson (jlookup fs "entities")
            with _ | es
          · simp [DeepSeekClient.extractFromJson, DeepSeekClient.confOfJson,
              hi, ho, hc, he]
          · simp [DeepSeekClient.extractFromJson, DeepSeekClient.confOfJson,
              hi, ho, hc, he, hr]
      | null => simp [DeepSeekClient.extractFromJson, hi]
      | bool b => simp [DeepSeekClient.extractFromJson, hi]
      | num m2 e2 => simp [DeepSeekClient.extractFromJson, hi]
      | arr xs => simp [DeepSeekClient.extractFromJson, hi]
      | obj fs2 => simp [DeepSeekClient.extractFromJson, hi]
  exact Workflow.extract_fallback_of_failure (.ok s)
    (Or.inr (Or.inr ⟨.obj fs, hj, hn⟩))

/-- Witness for C10: a fenced payload with intent greeting but
confidence 1.5 evaluates to the full fallback. -/
theorem C10_confidence_revalidated_witness :
    jloads (extract_json_from_markdown overConfidentCompletion) =
      some (.obj [("intent", .str "greeting"), ("confidence", .num 15 1),
                  ("entities", .obj [])]) ∧
    confOk (15, 1) = false ∧
    DeepSeekClient.extract_intent_and_entities (.ok overConfidentCompletion) =
      DeepSeekClient.fallbackExtraction :=
  ⟨rfl, by decide,
   C10_confidence_revalidated overConfidentCompletion
     [("intent", .str "greeting"), ("confidence", .num 15 1),
      ("entities", .obj [])] 15 1 rfl rfl (by decide)⟩

/-- C9: an entity map whose passengers value cannot be coerced to an
integer or falls outside [1, 9] (or whose guests or rooms value is
non-coercible or outside [1, 10] and [1, 5] respectively for the hotel
branch) makes the whole branch degrade before any external call: the
request construction raises, the branch result is independent of the
collaborator, results are empty and the error field is recorded — the
per-field default of 1 is not applied. -/
theorem C9_invalid_counts_degrade :
    (∀ (ents : List (String × Json)) (st : Workflow.WorkflowState)
        (v : Json), st.entities = ents →
      jlookup ents "passengers" = some v → Workflow.badCount v 1 9 →
      flightRequestOfEntities ents = none ∧
      (∀ a1 a2, Workflow.search_flights a1 st =
        Workflow.search_flights a2 st) ∧
      ∀ a, (Workflow.search_flights a st).api_results = some [] ∧
        ((Workflow.search_flights a st).error).isSome = true) ∧
    (∀ ents st v, st.entities = ents →
      jlookup ents "guests" = some v → Workflow.badCount v 1 10 →
      hotelRequestOfEntities ents = none ∧
      (∀ a1 a2, Workflow.search_hotels a1 st =
        Workflow.search_hotels a2 st) ∧
      ∀ a, (Workflow.search_hotels a st).api_results = some [] ∧
        ((Workflow.search_hotels a st).error).isSome = true) ∧
    (∀ ents st v, st.entities = ents →
      jlookup ents "rooms" = some v → Workflow.badCount v 1 5 →
      hotelRequestOfEntities ents = none ∧
      (∀ a1 a2, Workflow.search_hotels a1 st =
        Workflow.search_hotels a2 st) ∧
      ∀ a, (Workflow.search_hotels a st).api_results = some [] ∧
        ((Workflow.search_hotels a st).error).isSome = true) := by
  refine ⟨?_, ?_, ?_⟩
  · intro ents st v hst hv hbad
    have hg : entGetD ents "passengers" (.num 1 0) = v := by
      unfold entGetD
      rw [hv]
      rfl
    have hnone : flightRequestOfEntities ents = none := by
      unfold Workflow.badCount at hbad
      rcases hbad with hc | ⟨n, hn, hr⟩
      · exact Workflow.flightRequest_none_of_coerce ents (by rw [hg]; exact hc)
      · exact Workflow.flightRequest_none_of_range ents n
          (by rw [hg]; exact hn) hr
    have hnone2 : flightRequestOfEntities st.entities = none := by
      rw [hst]
      exact hnone
    refine ⟨hnone, fun a1 a2 => ?_, fun a => ?_⟩
    · rw [Workflow.search_flights_invalid a1 st hnone2,
          Workflow.search_flights_invalid a2 st hnone2]
    · rw [Workflow.search_flights_invalid a st hnone2]
      exact ⟨rfl, rfl⟩
  · intro ents st v hst hv hbad
    have hg : entGetD ents "guests" (.num 1 0) = v := by
      unfold entGetD
      rw [hv]
      rfl
    have hnone : hotelRequestOfEntities ents = none := by
      unfold Workflow.badCount at hbad
      rcases hbad with hc | ⟨n, hn, hr⟩
      · exact Workflow.hotelRequest_none_of_guests_coerce ents
          (by rw [hg]; exact hc)
      · exact Workflow.hotelRequest_none_of_guests_range ents n
          (by rw [hg]; exact hn) hr
    have hnone2 : hotelRequestOfEntities st.entities = none := by
      rw [hst]
      exact hnone
    refine ⟨hnone, fun a1 a2 => ?_, fun a => ?_⟩
    · rw [Workflow.search_hotels_invalid a1 st hnone2,
          Workflow.search_hotels_invalid a2 st hnone2]
    · rw [Workflow.search_hotels_invalid a st hnone2]
      exact ⟨rfl, rfl⟩
  · intro ents st v hst hv hbad
    have hg : entGetD ents "rooms" (.num 1 0) = v := by
      unfold entGetD
      rw [hv]
      rfl
    have hnone : hotelRequestOfEntities ents = none := by
      unfold Workflow.badCount at hbad
      rcases hbad with hc | ⟨n, hn, hr⟩
      · exact Workflow.hotelRequest_none_of_rooms_coerce ents
          (by rw [hg]; exact hc)
      · exact Workflow.hotelRequest_none_of_rooms_range ents n
          (by rw [hg]; exact hn) hr
    have hnone2 : hotelRequestOfEntities st.entities = none := by
      rw [hst]
      exact hnone
    refine ⟨hnone, fun a1 a2 => ?_, fun a => ?_⟩
    · rw [Workflow.search_hotels_invalid a1 st hnone2,
          Workflow.search_hotels_invalid a2 st hnone2]
    · rw [Workflow.search_hotels_invalid a st hnone2]
      exact ⟨rfl, rfl⟩

/-- Witness for C9: a non-numeric passengers entity degrades the flight
branch with empty results for an otherwise-succeeding collaborator. -/
theorem C9_invalid_counts_degrade_witness :
    jlookup [("passengers", Json.str "two")] "passengers" =
      some (.str "two") ∧
    pyInt (.str "two") = none ∧
    flightRequestOfEntities [("passengers", Json.str "two")] = none ∧
    (Workflow.search_flights (fun _ => .ok [.null])
      (stateWithEntities [("passengers", Json.str "two")])).api_results =
      some [] :=
  ⟨rfl, rfl,
   (C9_invalid_counts_degrade.1 [("passengers", Json.str "two")]
     (stateWithEntities [("passengers", Json.str "two")]) (.str "two")
     rfl rfl (Or.inl rfl)).1,
   ((C9_invalid_counts_degrade.1 [("passengers", Json.str "two")]
     (stateWithEntities [("passengers", Json.str "two")]) (.str "two")
     rfl rfl (Or.inl rfl)).2.2 (fun _ => .ok [.null])).1⟩

/-- Truncation of an integral decimal with no fractional digits is the
identity on non-negative integers. -/
theorem truncToInt_zero (p : Int) (h : 0 ≤ p) : truncToInt p 0 = p := by
  unfold truncToInt
  rw [if_pos h]
  simp [Int.toNat_of_nonneg h]

/-- C8 (amended): each dispatch branch builds its request from the
entity map with the explicit defaults passengers=1, guests=1, rooms=1,
class_type="economy", booking_type="flight", booking_id="", with
origin, destination, location, departure_date, check_in and check_out
defaulting to the empty string and return_date defaulting to None (not
the empty string); present fields are passed through unchanged (counts
via int coercion, subject to the pydantic bounds). -/
theorem C8_request_defaults :
    flightRequestOfEntities [] =
      some ⟨"", "", "", none, 1, "economy"⟩ ∧
    hotelRequestOfEntities [] = some ⟨"", "", "", 1, 1⟩ ∧
    bookingArgsOfEntities [] = (.str "flight", .str "") ∧
    (∀ (o d dd rd ct : String) (p : Int), 1 ≤ p → p ≤ 9 →
      flightRequestOfEntities
        [("origin", .str o), ("destination", .str d),
         ("departure_date", .str dd), ("return_date", .str rd),
         ("passengers", .num p 0), ("class_type", .str ct)] =
        some ⟨o, d, dd, some rd, p, ct⟩) ∧
    (∀ (l ci co : String) (g r : Int), 1 ≤ g → g ≤ 10 → 1 ≤ r → r ≤ 5 →
      hotelRequestOfEntities
        [("location", .str l), ("check_in", .str ci),
         ("check_out", .str co), ("guests", .num g 0),
         ("rooms", .num r 0)] = some ⟨l, ci, co, g, r⟩) := by
  refine ⟨rfl, rfl, rfl, ?_, ?_⟩
  · intro o d dd rd ct p h1 h2
    have hp0 : (0 : Int) ≤ p := le_trans (by norm_num) h1
    show (if 1 ≤ truncToInt p 0 && truncToInt p 0 ≤ 9 then
            some (⟨o, d, dd, some rd, truncToInt p 0, ct⟩ :
              FlightSearchRequest)
          else none) = some ⟨o, d, dd, some rd, p, ct⟩
    rw [truncToInt_zero p hp0, if_pos]
    simp only [Bool.and_eq_true, decide_eq_true_eq]
    exact ⟨h1, h2⟩
  · intro l ci co g r hg1 hg2 hr1 hr2
    have hg0 : (0 : Int) ≤ g := le_trans (by norm_num) hg1
    have hr0 : (0 : Int) ≤ r := le_trans (by norm_num) hr1
    show (if (1 ≤ truncToInt g 0 && truncToInt g 0 ≤ 10) &&
             (1 ≤ truncToInt r 0 && truncToInt r 0 ≤ 5) then
            some (⟨l, ci, co, truncToInt g 0, truncToInt r 0⟩ :
              HotelSearchRequest)
          else none) = some ⟨l, ci, co, g, r⟩
    rw [truncToInt_zero g hg0, truncToInt_zero r hr0, if_pos]
    simp only [Bool.and_eq_true, decide_eq_true_eq]
    exact ⟨⟨hg1, hg2⟩, ⟨hr1, hr2⟩⟩

/-- Witness for C8: concrete present fields pass through, and the
defaults apply on the empty map. -/
theorem C8_request_defaults_witness :
    flightRequestOfEntities
      [("origin", .str "NYC"), ("destination", .str "LA"),
       ("departure_date", .str "2024-01-19"),
       ("return_date", .str "2024-01-26"),
       ("passengers", .num 2 0), ("class_type", .str "business")] =
      some ⟨"NYC", "LA", "2024-01-19", some "2024-01-26", 2, "business"⟩ ∧
    hotelRequestOfEntities [] = some ⟨"", "", "", 1, 1⟩ :=
  ⟨C8_request_defaults.2.2.2.1 "NYC" "LA" "2024-01-19" "2024-01-26"
     "business" 2 (by norm_num) (by norm_num),
   C8_request_defaults.2.1⟩

/-- Counterexample for C8 as stated: on the empty entity map the
return_date field of the flight request is None, not the empty
string. -/
theorem C8_counterexample :
    (flightRequestOfEntities []).map FlightSearchRequest.return_date =
      some none ∧
    some (none : Option String) ≠ some (some "") :=
  ⟨rfl, by decide⟩

/-- C5 (amended): a transport failure, blank content, an undecodable
payload (after fence extraction, which falls back to the raw text when
no fence is present), or a decoded payload the schema rejects —
including an intent outside the five-member enumeration — makes the
extractor return (general_inquiry, 0.5, empty), and the pipeline still
runs to DONE with that fallback intent and an echoed session id.  A
missing fence alone is not a failure: the raw text is tried as the
payload. -/
theorem C5_extraction_failure_absorbed (env : Workflow.TurnEnv)
    (store : Store) (input sid : String) (uid : Option String)
    (h : Workflow.extractFailure env.extractCompletion) :
    DeepSeekClient.extract_intent_and_entities env.extractCompletion =
      DeepSeekClient.fallbackExtraction ∧
    (Workflow.run_pipeline env store
      (Workflow.initState input sid uid)).2.intent =
      some IntentType.general_inquiry ∧
    (Workflow.run_workflow env store input sid uid).2.session_id = sid := by
  have hf := Workflow.extract_fallback_of_failure env.extractCompletion h
  refine ⟨hf, ?_, Workflow.run_workflow_session env store input sid uid⟩
  rw [Workflow.pipeline_intent, hf]
  rfl

/-- Witness for C5 at a transport failure: the pipeline completes with
the fallback intent. -/
theorem C5_extraction_failure_absorbed_witness :
    Workflow.extractFailure baseEnv.extractCompletion ∧
    (Workflow.run_pipeline baseEnv emptyStore
      (Workflow.initState "hi" "s1" none)).2.intent =
      some IntentType.general_inquiry :=
  ⟨trivial,
   (C5_extraction_failure_absorbed baseEnv emptyStore "hi" "s1" none
     trivial).2.1⟩

/-- Counterexample for C5 as stated: a completion with no markdown
fence whose raw text is valid JSON is not an extraction failure — the
extractor returns the parsed intent (greeting), not the fallback
triple. -/
theorem C5_counterexample :
    (DeepSeekClient.extract_intent_and_entities
      (.ok unfencedGreeting)).intent = IntentType.greeting ∧
    DeepSeekClient.fallbackExtraction.intent = IntentType.general_inquiry ∧
    IntentType.greeting ≠ IntentType.general_inquiry :=
  ⟨rfl, rfl, by decide⟩

/-- C4 (amended): a transport failure, blank content, an undecodable
payload, a non-object payload or an invalid UI-element record makes
generate_response return the fixed apology with an empty UI-element
sequence, and it never raises; a parsed object merely missing the
message member is not such a failure. -/
theorem C4_generation_failure_fallback (c : Except String String)
    (h : Workflow.genFailure c) :
    DeepSeekClient.generate_response c =
      (.str DeepSeekClient.apologyMessage, []) :=
  Workflow.generate_fallback_of_failure c h

/-- Witness for C4 at a transport failure. -/
theorem C4_generation_failure_fallback_witness :
    Workflow.genFailure (Except.error "completion unreachable") ∧
    DeepSeekClient.generate_response (.error "completion unreachable") =
      (.str DeepSeekClient.apologyMessage, []) :=
  ⟨trivial,
   C4_generation_failure_fallback (.error "completion unreachable") trivial⟩

/-- Counterexample for C4 as stated: a payload that parses to an object
with no message member yields an empty-string message with the parsed
(empty) UI elements, not the fixed apology. -/
theorem C4_counterexample :
    DeepSeekClient.generate_response (.ok noMessageCompletion) =
      (.str "", []) ∧
    ("" : String) ≠ DeepSeekClient.apologyMessage :=
  ⟨rfl, by decide⟩

namespace Workflow

/-- The pre-store results coincide with the dispatch results. -/
theorem pre_store_api (env : TurnEnv) (store : Store) (st0 : WorkflowState) :
    (pre_store_state env store st0).api_results =
      (dispatch_node env
        (extract_intent_and_entities env
          (preprocess_input env store st0))).api_results := rfl

/-- The pre-store error field coincides with the dispatch error
field. -/
theorem pre_store_error (env : TurnEnv) (store : Store)
    (st0 : WorkflowState) :
    (pre_store_state env store st0).error =
      (dispatch_node env
        (extract_intent_and_entities env
          (preprocess_input env store st0))).error := rfl

end Workflow

/-- C1 (amended): run_workflow always echoes the session_id it was
called with, and its message is exactly the message produced by the
response-generation step — in particular the fixed non-empty apology
whenever the generation completion fails, but possibly the empty
string when the completion succeeds with a parsed object lacking a
non-empty message member. -/
theorem C1_session_echo_and_message (env : Workflow.TurnEnv)
    (store : Store) (input sid : String) (uid : Option String) :
    (Workflow.run_workflow env store input sid uid).2.session_id = sid ∧
    (∀ s, (DeepSeekClient.generate_response env.generateCompletion).1 =
        .str s →
      (Workflow.run_workflow env store input sid uid).2.message = s) ∧
    (∀ e, env.generateCompletion = .error e →
      (Workflow.run_workflow env store input sid uid).2.message =
        DeepSeekClient.apologyMessage ∧
      DeepSeekClient.apologyMessage ≠ "") :=
  ⟨Workflow.run_workflow_session env store input sid uid,
   fun s hs =>
     Workflow.run_workflow_message_of_str env store input sid uid s hs,
   fun e he =>
     ⟨Workflow.run_workflow_message_of_str env store input sid uid
        DeepSeekClient.apologyMessage (by rw [he]; rfl),
      by decide⟩⟩

/-- Witness for C1 at a failing generation completion: the caller sees
the apology and the echoed session id. -/
theorem C1_session_echo_and_message_witness :
    (Workflow.run_workflow baseEnv emptyStore "hi" "s1" none).2.session_id =
      "s1" ∧
    (Workflow.run_workflow baseEnv emptyStore "hi" "s1" none).2.message =
      DeepSeekClient.apologyMessage :=
  ⟨(C1_session_echo_and_message baseEnv emptyStore "hi" "s1" none).1,
   ((C1_session_echo_and_message baseEnv emptyStore "hi" "s1" none).2.2
     "completion unreachable" rfl).1⟩

/-- Counterexample for C1 as stated: with the non-empty session id s1
and a generation completion whose parsed object has no message member,
run_workflow returns the empty message. -/
theorem C1_counterexample :
    (Workflow.run_workflow envNoMsg emptyStore "hi" "s1" none).2.session_id =
      "s1" ∧
    (Workflow.run_workflow envNoMsg emptyStore "hi" "s1" none).2.message =
      "" ∧
    ("s1" : String) ≠ "" :=
  ⟨rfl, rfl, by decide⟩

/-- C2 (amended): run_workflow performs no session_id validation — an
empty session_id is processed exactly like any other: the response
echoes the empty id, and when the store operations succeed the two log
entries of the turn are appended under the empty session id. -/
theorem C2_no_session_validation (env : Workflow.TurnEnv) (store : Store)
    (input : String) (uid : Option String) :
    (Workflow.run_workflow env store input "" uid).2.session_id = "" ∧
    (env.storeUser = .ok () → env.storeAssistant = .ok () →
     env.storeSession = .ok () →
     ∀ s, (DeepSeekClient.generate_response env.generateCompletion).1 =
       .str s →
     (Workflow.run_workflow env store input "" uid).1.messages.length =
       store.messages.length + 2 ∧
     ((Workflow.run_workflow env store input "" uid).1.messages.drop
       store.messages.length).map
         (fun m => (m.message_type, m.session_id)) =
       [("user", ""), ("assistant", "")]) := by
  refine ⟨Workflow.run_workflow_session env store input "" uid, ?_⟩
  intro hu ha hs s hgen
  have hm : (Workflow.pre_store_state env store
      (Workflow.initState input "" uid)).response_message = .str s := by
    rw [Workflow.pre_store_message, hgen]
  have hok := Workflow.store_conversation_ok env store _ hu ha hs s hm
  have hmsgs : (Workflow.run_workflow env store input "" uid).1.messages =
      store.messages ++
        [Workflow.userEntry
          (Workflow.pre_store_state env store
            (Workflow.initState input "" uid)),
         Workflow.assistantEntry
          (Workflow.pre_store_state env store
            (Workflow.initState input "" uid)) s] := by
    rw [Workflow.run_workflow_store]
    exact hok.1
  constructor
  · rw [hmsgs]
    simp
  · rw [hmsgs, List.drop_left]
    simp [Workflow.userEntry, Workflow.assistantEntry,
      Workflow.pre_store_session, Workflow.initState]

/-- Witness for C2: a concrete all-successful store run with empty
session id appends two entries. -/
theorem C2_no_session_validation_witness :
    (Workflow.run_workflow baseEnv emptyStore "hi" "" none).1.messages.length
      = emptyStore.messages.length + 2 :=
  ((C2_no_session_validation baseEnv emptyStore "hi" none).2 rfl rfl rfl
    DeepSeekClient.apologyMessage rfl).1

/-- Counterexample for C2 as stated: calling with the empty session id
neither fails nor avoids store writes — the turn runs to completion,
the caller receives an ordinary degraded response, and two log entries
plus one session record are written under the empty id. -/
theorem C2_counterexample :
    (Workflow.run_workflow baseEnv emptyStore "hi" "" none).1.messages.length
      = 2 ∧
    (Workflow.run_workflow baseEnv emptyStore "hi" "" none).1.sessions =
      [⟨"", none⟩] ∧
    (Workflow.run_workflow baseEnv emptyStore "hi" "" none).2.message =
      DeepSeekClient.apologyMessage :=
  ⟨rfl, rfl, rfl⟩

/-- C3 (amended): when every store operation succeeds, a completed turn
appends exactly one user-role and one assistant-role log entry for the
turn's session and upserts its session record; the log is append-only
in every outcome (previously written entries are never mutated).  The
three store operations commit separately, so persistence of the pair
is not atomic. -/
theorem C3_turn_persistence (env : Workflow.TurnEnv) (store : Store)
    (input sid : String) (uid : Option String) :
    (env.storeUser = .ok () → env.storeAssistant = .ok () →
     env.storeSession = .ok () →
     ∀ s, (DeepSeekClient.generate_response env.generateCompletion).1 =
       .str s →
     ∃ u a, (Workflow.run_workflow env store input sid uid).1.messages =
         store.messages ++ [u, a] ∧
       u.message_type = "user" ∧ a.message_type = "assistant" ∧
       u.session_id = sid ∧ a.session_id = sid ∧
       (Workflow.run_workflow env store input sid uid).1.sessions =
         upsertSession store.sessions sid uid) ∧
    (∃ t, (Workflow.run_workflow env store input sid uid).1.messages =
      store.messages ++ t) := by
  constructor
  · intro hu ha hs s hgen
    have hm : (Workflow.pre_store_state env store
        (Workflow.initState input sid uid)).response_message = .str s := by
      rw [Workflow.pre_store_message, hgen]
    have hok := Workflow.store_conversation_ok env store _ hu ha hs s hm
    refine ⟨Workflow.userEntry
        (Workflow.pre_store_state env store
          (Workflow.initState input sid uid)),
      Workflow.assistantEntry
        (Workflow.pre_store_state env store
          (Workflow.initState input sid uid)) s,
      ?_, rfl, rfl, ?_, ?_, ?_⟩
    · rw [Workflow.run_workflow_store]
      exact hok.1
    · show (Workflow.pre_store_state env store
        (Workflow.initState input sid uid)).session_id = sid
      rw [Workflow.pre_store_session]
      rfl
    · show (Workflow.pre_store_state env store
        (Workflow.initState input sid uid)).session_id = sid
      rw [Workflow.pre_store_session]
      rfl
    · rw [Workflow.run_workflow_store]
      show (Workflow.store_conversation env store
        (Workflow.pre_store_state env store
          (Workflow.initState input sid uid))).1.sessions =
        upsertSession store.sessions sid uid
      rw [hok.2.1, Workflow.pre_store_session, Workflow.pre_store_user]
      rfl
  · rcases Workflow.store_conversation_append env store
      (Workflow.pre_store_state env store
        (Workflow.initState input sid uid)) with ⟨t, ht⟩
    refine ⟨t, ?_⟩
    rw [Workflow.run_workflow_store]
    exact ht

/-- Witness for C3: a concrete successful turn appends the user and
assistant entries for session s1 and upserts its record. -/
theorem C3_turn_persistence_witness :
    ∃ u a, (Workflow.run_workflow baseEnv emptyStore "hi" "s1"
        none).1.messages = emptyStore.messages ++ [u, a] ∧
      u.message_type = "user" ∧ a.message_type = "assistant" ∧
      u.session_id = "s1" ∧ a.session_id = "s1" ∧
      (Workflow.run_workflow baseEnv emptyStore "hi" "s1" none).1.sessions =
        upsertSession emptyStore.sessions "s1" none :=
  (C3_turn_persistence baseEnv emptyStore "hi" "s1" none).1 rfl rfl rfl
    DeepSeekClient.apologyMessage rfl

/-- Counterexample for C3 as stated: when the assistant-entry write
fails, the already-committed user entry stays persisted and no session
record is written — a reader observes the partial write, while the
caller still receives a normal reply. -/
theorem C3_counterexample :
    ((Workflow.run_workflow envAsstFail emptyStore "hi" "s3"
        none).1.messages.map (fun m => m.message_type)) = ["user"] ∧
    (Workflow.run_workflow envAsstFail emptyStore "hi" "s3" none).1.sessions
      = [] ∧
    (Workflow.run_workflow envAsstFail emptyStore "hi" "s3" none).2.message =
      DeepSeekClient.apologyMessage :=
  ⟨rfl, rfl, rfl⟩

/-- C7 (amended): when the turn routes to a search or booking branch
whose collaborator fails on every request, the failure is caught at
the branch boundary — the results are the empty sequence, the error
field is recorded, the turn is not aborted (the session id is echoed),
and the caller message is whatever the response-generation step
produces: the fixed apology when generation fails, though possibly
empty when generation succeeds without a message member. -/
theorem C7_collaborator_failure_degraded (env : Workflow.TurnEnv)
    (store : Store) (input sid : String) (uid : Option String)
    (err : String)
    (h : ((DeepSeekClient.extract_intent_and_entities
            env.extractCompletion).intent = IntentType.search_flight ∧
          ∀ req, env.flightApi req = .error err) ∨
         ((DeepSeekClient.extract_intent_and_entities
            env.extractCompletion).intent = IntentType.search_hotel ∧
          ∀ req, env.hotelApi req = .error err) ∨
         ((DeepSeekClient.extract_intent_and_entities
            env.extractCompletion).intent = IntentType.book_trip ∧
          ∀ bt bid ents, env.bookingApi bt bid ents = .error err)) :
    (Workflow.run_pipeline env store
      (Workflow.initState input sid uid)).2.api_results = some [] ∧
    ((Workflow.run_pipeline env store
      (Workflow.initState input sid uid)).2.error).isSome = true ∧
    (Workflow.run_pipeline env store
      (Workflow.initState input sid uid)).2.response_message =
      (DeepSeekClient.generate_response env.generateCompletion).1 ∧
    (Workflow.run_workflow env store input sid uid).2.session_id = sid ∧
    (∀ e, env.generateCompletion = .error e →
      (Workflow.run_workflow env store input sid uid).2.message =
        DeepSeekClient.apologyMessage) := by
  rcases h with ⟨hi, hapi⟩ | ⟨hi, hapi⟩ | ⟨hi, hapi⟩
  · have hst2 : (Workflow.extract_intent_and_entities env
        (Workflow.preprocess_input env store
          (Workflow.initState input sid uid))).intent =
        some IntentType.search_flight := by
      show some (DeepSeekClient.extract_intent_and_entities
        env.extractCompletion).intent = some IntentType.search_flight
      rw [hi]
    have hd := Workflow.dispatch_eq_flight env _ hst2
    have hall := Workflow.search_flights_allfail env.flightApi
      (Workflow.extract_intent_and_entities env
        (Workflow.preprocess_input env store
          (Workflow.initState input sid uid))) err hapi
    refine ⟨?_, ?_, Workflow.pipeline_message env store _,
      Workflow.run_workflow_session env store input sid uid,
      fun e he => Workflow.run_workflow_message_of_str env store input sid
        uid DeepSeekClient.apologyMessage (by rw [he]; rfl)⟩
    · unfold Workflow.run_pipeline
      rw [Workflow.store_keeps_api, Workflow.pre_store_api, hd]
      exact hall.1
    · unfold Workflow.run_pipeline
      apply Workflow.store_keeps_error_isSome
      rw [Workflow.pre_store_error, hd]
      exact hall.2
  · have hst2 : (Workflow.extract_intent_and_entities env
        (Workflow.preprocess_input env store
          (Workflow.initState input sid uid))).intent =
        some IntentType.search_hotel := by
      show some (DeepSeekClient.extract_intent_and_entities
        env.extractCompletion).intent = some IntentType.search_hotel
      rw [hi]
    have hd := Workflow.dispatch_eq_hotel env _ hst2
    have hall := Workflow.search_hotels_allfail env.hotelApi
      (Workflow.extract_intent_and_entities env
        (Workflow.preprocess_input env store
          (Workflow.initState input sid uid))) err hapi
    refine ⟨?_, ?_, Workflow.pipeline_message env store _,
      Workflow.run_workflow_session env store input sid uid,
      fun e he => Workflow.run_workflow_message_of_str env store input sid
        uid DeepSeekClient.apologyMessage (by rw [he]; rfl)⟩
    · unfold Workflow.run_pipeline
      rw [Workflow.store_keeps_api, Workflow.pre_store_api, hd]
      exact hall.1
    · unfold Workflow.run_pipeline
      apply Workflow.store_keeps_error_isSome
      rw [Workflow.pre_store_error, hd]
      exact hall.2
  · have hst2 : (Workflow.extract_intent_and_entities env
        (Workflow.preprocess_input env store
          (Workflow.initState input sid uid))).intent =
        some IntentType.book_trip := by
      show some (DeepSeekClient.extract_intent_and_entities
        env.extractCompletion).intent = some IntentType.book_trip
      rw [hi]
    have hd := Workflow.dispatch_eq_booking env _ hst2
    have hall := Workflow.create_booking_allfail env.bookingApi
      (Workflow.extract_intent_and_entities env
        (Workflow.preprocess_input env store
          (Workflow.initState input sid uid))) err hapi
    refine ⟨?_, ?_, Workflow.pipeline_message env store _,
      Workflow.run_workflow_session env store input sid uid,
      fun e he => Workflow.run_workflow_message_of_str env store input sid
        uid DeepSeekClient.apologyMessage (by rw [he]; rfl)⟩
    · unfold Workflow.run_pipeline
      rw [Workflow.store_keeps_api, Workflow.pre_store_api, hd]
      exact hall.1
    · unfold Workflow.run_pipeline
      apply Workflow.store_keeps_error_isSome
      rw [Workflow.pre_store_error, hd]
      exact hall.2

/-- Witness for C7: a failing flight collaborator, and likewise a
failing booking collaborator, each with a failing generation
completion, still yield the apology reply over empty results. -/
theorem C7_collaborator_failure_degraded_witness :
    (Workflow.run_pipeline envFlightFailGenDown emptyStore
      (Workflow.initState "flight" "s1" none)).2.api_results = some [] ∧
    (Workflow.run_workflow envFlightFailGenDown emptyStore "flight" "s1"
      none).2.message = DeepSeekClient.apologyMessage ∧
    (Workflow.run_pipeline envBookingFailGenDown emptyStore
      (Workflow.initState "book it" "s1" none)).2.api_results = some [] ∧
    (Workflow.run_workflow envBookingFailGenDown emptyStore "book it" "s1"
      none).2.message = DeepSeekClient.apologyMessage :=
  ⟨(C7_collaborator_failure_degraded envFlightFailGenDown emptyStore
      "flight" "s1" none "flight api down"
      (Or.inl ⟨rfl, fun _ => rfl⟩)).1,
   (C7_collaborator_failure_degraded envFlightFailGenDown emptyStore
      "flight" "s1" none "flight api down"
      (Or.inl ⟨rfl, fun _ => rfl⟩)).2.2.2.2 "completion unreachable" rfl,
   (C7_collaborator_failure_degraded envBookingFailGenDown emptyStore
      "book it" "s1" none "booking api down"
      (Or.inr (Or.inr ⟨rfl, fun _ _ _ => rfl⟩))).1,
   (C7_collaborator_failure_degraded envBookingFailGenDown emptyStore
      "book it" "s1" none "booking api down"
      (Or.inr (Or.inr ⟨rfl, fun _ _ _ => rfl⟩))).2.2.2.2
      "completion unreachable" rfl⟩

/-- Counterexample for C7 as stated: with a failing flight collaborator
and a generation completion whose parsed object lacks the message
member, the results are empty but the caller message is the empty
string, not a non-empty one. -/
theorem C7_counterexample :
    (Workflow.run_workflow envFlightFail emptyStore "flight" "s1"
      none).2.results = some [] ∧
    (Workflow.run_workflow envFlightFail emptyStore "flight" "s1"
      none).2.message = "" :=
  ⟨rfl, rfl⟩
